import Mathlib

/-!
Shallow embedding of the weather CLI program (`src/main.rs`) and proofs about
its specification claims.

The program is a terminal weather utility: it builds a request URL from
(city, country, api token), fetches and deserializes a JSON weather record,
renders it with an emoji and a color chosen by lookup tables, and loops while
the user answers "yes" (trimmed, lowercased) to a continuation prompt.

Modelling conventions:
* `f64` values are modelled by `F64`: either NaN, an infinity, or a finite
  value represented exactly as a rational.  The only float operations the
  program performs are comparisons against literals (`F64.flt`, false on NaN,
  as in IEEE 754) and `{:.1}` formatting (`fmt1`, round-half-to-even to one
  decimal digit, which is what Rust's formatter does on the exact value).
* The out-of-bounds vector index `weather[0]` on an empty list (a Rust panic)
  is modelled by `Option`: `render_weather_info` returns `none` exactly when
  the weather list is empty.
* The interaction loop `execute_app` is modelled as a function of a script:
  one `Iteration` per loop pass carries the two location inputs, the result
  of `obtain_weather`, and the continuation answer.  The transcript is a list
  of output events tagged with their stream (stdout with its color styling,
  or stderr), and the outcome distinguishes normal termination, a panic, and
  exhaustion of the script while the loop still wanted input.
* Rust's `str::trim` and `str::to_lowercase` are embedded character-wise
  (`rustTrim`, `rustToLowercase`) so that every proof evaluates.
-/

/-- The kinds of `reqwest::Error` the spec distinguishes: transport failure,
non-success HTTP status, response-decoding failure.  The program never
inspects the kind; it is carried only so we can state that all kinds are
reported identically. -/
inductive ErrKind
  | network
  | provider
  | decode
deriving DecidableEq, Repr

/-- Model of `reqwest::Error`: an opaque kind plus the string its `Display`
implementation produces. -/
structure ReqwestError where
  kind : ErrKind
  msg : String
deriving DecidableEq, Repr

/-- Display of a `reqwest::Error`: the program prints it with `{}`,
independently of the kind. -/
def ReqwestError.display (e : ReqwestError) : String := e.msg

/-- Model of `f64`: NaN, the two infinities, or a finite value represented
exactly by a rational.  The program only compares temperatures with literals
and formats metrics to one decimal, so this carries everything it observes. -/
inductive F64
  | nan
  | inf
  | neginf
  | val (q : ℚ)
deriving DecidableEq, Repr

/-- IEEE-754 `<` on the model: any comparison involving NaN is false. -/
def F64.flt : F64 → F64 → Bool
  | .nan, _ => false
  | _, .nan => false
  | .neginf, .neginf => false
  | .neginf, _ => true
  | _, .neginf => false
  | .inf, _ => false
  | .val _, .inf => true
  | .val a, .val b => decide (a < b)

/-- Rust `struct WeatherDetails { description: String }` -/
structure WeatherDetails where
  description : String
deriving DecidableEq, Repr

/-- Rust `struct WeatherMain { temp: f64, humidity: f64, pressure: f64 }` -/
structure WeatherMain where
  temp : F64
  humidity : F64
  pressure : F64
deriving DecidableEq, Repr

/-- Rust `struct WindInfo { speed: f64 }` -/
structure WindInfo where
  speed : F64
deriving DecidableEq, Repr

/-- Rust `struct WeatherData { weather: Vec<WeatherDetails>, main: WeatherMain,
wind: WindInfo, name: String }` -/
structure WeatherData where
  weather : List WeatherDetails
  main : WeatherMain
  wind : WindInfo
  name : String
deriving DecidableEq, Repr

/-- The color styles the program uses from the `colored` crate, plus
`normal` for the unstyled fallback (and for plain `println!`). -/
inductive Style
  | brightYellow
  | brightBlue
  | brightCyan
  | brightGreen
  | dimmed
  | normal
deriving DecidableEq, Repr

/-- Model of `colored::ColoredString`: the text together with its styling. -/
structure ColoredString where
  text : String
  style : Style
deriving DecidableEq, Repr

/-- Rust `WeatherApp::emoji_for_temperature`: first-match-wins thresholds over
IEEE `<` comparisons with the literals 0.0, 10.0, 20.0, 30.0. -/
def emoji_for_temperature (temp : F64) : String :=
  if temp.flt (.val 0) then "❄️"
  else if temp.flt (.val 10) then "☁️"
  else if temp.flt (.val 20) then "⛅"
  else if temp.flt (.val 30) then "🌤️"
  else "🔥"

/-- Rust `WeatherApp::colorize_weather_output`: exact, case-sensitive match of the
description against the fixed provider phrases; anything else is unstyled.
Rust's `match` on string literals is a sequence of equality tests, embedded
here as an if-chain. -/
def colorize_weather_output (description weather_text : String) : ColoredString :=
  if description = "clear sky" then ⟨weather_text, .brightYellow⟩
  else if description = "few clouds" ∨ description = "scattered clouds" ∨
      description = "broken clouds" then ⟨weather_text, .brightBlue⟩
  else if description = "overcast clouds" ∨ description = "mist" ∨
      description = "haze" ∨ description = "smoke" ∨ description = "dust" ∨
      description = "fog" then ⟨weather_text, .dimmed⟩
  else if description = "rain" ∨ description = "thunderstorm" ∨
      description = "snow" then ⟨weather_text, .brightCyan⟩
  else ⟨weather_text, .normal⟩

/-- The fixed set of provider phrases `colorize_weather_output` recognises. -/
def knownPhrases : List String :=
  ["clear sky", "few clouds", "scattered clouds", "broken clouds",
   "overcast clouds", "mist", "haze", "smoke", "dust", "fog",
   "rain", "thunderstorm", "snow"]

/-- Value of `|q| * 10` rounded to the nearest integer, ties to even — the rounding
Rust's float formatter applies to the exact value.  Computed by exact
integer arithmetic on the numerator and denominator. -/
def roundTenthsAbs (q : ℚ) : ℕ :=
  let n := q.num.natAbs * 10
  let d := q.den
  let w := n / d
  let r := n % d
  if 2 * r < d then w
  else if d < 2 * r then w + 1
  else if w % 2 = 0 then w else w + 1

/-- Rust `{:.1}` formatting of an `F64`: sign, integer part, a dot, and
exactly one rounded decimal digit (round half to even on the exact value). -/
def fmt1 : F64 → String
  | .nan => "NaN"
  | .inf => "inf"
  | .neginf => "-inf"
  | .val q =>
    let sign := if q < 0 then "-" else ""
    let m := roundTenthsAbs q
    sign ++ toString (m / 10) ++ "." ++ toString (m % 10)

/-- The body `WeatherApp::render_weather_info` builds with `format!`,
given the description extracted from the weather list. -/
def weatherBlock (weather_info : WeatherData) (weather_desc : String) : String :=
  "Weather Update for " ++ weather_info.name ++ ": " ++ weather_desc ++ " " ++
    emoji_for_temperature weather_info.main.temp ++
    "\n            > Temperature: " ++ fmt1 weather_info.main.temp ++ "°C" ++
    "\n            > Humidity: " ++ fmt1 weather_info.main.humidity ++ "%" ++
    "\n            > Pressure: " ++ fmt1 weather_info.main.pressure ++ " hPa" ++
    "\n            > Wind Speed: " ++ fmt1 weather_info.wind.speed ++ " m/s"

/-- Rust `WeatherApp::render_weather_info`: reads `weather[0].description` — a
panic (modelled `none`) when the weather list is empty — formats the block
and colors it by description.  The result is what `println!` receives. -/
def render_weather_info (weather_info : WeatherData) : Option ColoredString :=
  match weather_info.weather with
  | [] => none
  | d :: _ =>
    let weather_desc := d.description
    some (colorize_weather_output weather_desc (weatherBlock weather_info weather_desc))

/-- The request URL `WeatherApp::obtain_weather` builds with `format!` from
the city, the country code and the configured API token. -/
def api_endpoint_for (api_token city country : String) : String :=
  "http://api.openweathermap.org/data/2.5/weather?q=" ++ city ++ "," ++ country ++
    "&units=metric&appid=" ++ api_token

/-- Rust `WeatherApp::obtain_weather`, parametrised by the transport: `get`
performs the blocking HTTP GET on the built URL, `json` deserializes the
response body; either step may fail with a `ReqwestError`, short-circuited
by `?` exactly as `Except` bind does. -/
def obtain_weather {β : Type} (get : String → Except ReqwestError β)
    (json : β → Except ReqwestError WeatherData)
    (api_token city country : String) : Except ReqwestError WeatherData := do
  let api_endpoint := api_endpoint_for api_token city country
  let api_response ← get api_endpoint
  let weather_info ← json api_response
  .ok weather_info

/-- Whitespace as Rust's `str::trim` sees it, restricted to the ASCII range
the program can receive from a terminal line. -/
def isWs (c : Char) : Bool :=
  c = ' ' || c = '\t' || c = '\n' || c = '\x0b' || c = '\x0c' || c = '\r'

/-- Drop leading whitespace from a character list. -/
def trimLeftChars : List Char → List Char
  | [] => []
  | c :: cs => if isWs c then trimLeftChars cs else c :: cs

/-- Rust `str::trim`: remove leading and trailing whitespace. -/
def rustTrim (s : String) : String :=
  ⟨trimLeftChars (trimLeftChars s.data.reverse).reverse⟩

/-- Rust `str::to_lowercase`, on the ASCII range the comparisons use. -/
def lowerChar (c : Char) : Char :=
  if 'A' ≤ c ∧ c ≤ 'Z' then Char.ofNat (c.toNat + 32) else c

/-- Rust `str::to_lowercase` over a whole string. -/
def rustToLowercase (s : String) : String :=
  ⟨s.data.map lowerChar⟩

/-- The loop guard in `UserInteraction::execute_app`: the loop repeats iff
`user_choice.trim().to_lowercase()` equals "yes". -/
def continueChoice (user_choice : String) : Bool :=
  rustToLowercase (rustTrim user_choice) == "yes"

/-- One observable output of the program: a line to stdout (with the styling
`println!` received) or a line to stderr (from `eprintln!`). -/
inductive OutEvent
  | stdout (cs : ColoredString)
  | stderr (line : String)
deriving DecidableEq, Repr

/-- Whether an output event went to the error stream. -/
def OutEvent.isStderr : OutEvent → Bool
  | .stdout _ => false
  | .stderr _ => true

/-- One pass of the interaction loop, scripted: the two location lines the
user types, the result `obtain_weather` produces for them, and the answer to
the continuation prompt. -/
structure Iteration where
  city : String
  country : String
  fetch : Except ReqwestError WeatherData
  answer : String

/-- How a run of the loop ends: a normal `break`, a Rust panic, or the
script running out while the loop asked for another iteration. -/
inductive Outcome
  | terminated
  | panicked (msg : String)
  | starved
deriving DecidableEq, Repr

/-- Event for `println!` of the welcome banner. -/
def welcomeEv : OutEvent := .stdout ⟨"Welcome to Weather App!", .brightYellow⟩

/-- Event for `println!` of the city prompt in `acquire_user_input`. -/
def cityPromptEv : OutEvent := .stdout ⟨"Enter the name of the city:", .brightGreen⟩

/-- Event for `println!` of the country prompt in `acquire_user_input`. -/
def countryPromptEv : OutEvent :=
  .stdout ⟨"Enter the country code (e.g., US for United States):", .brightGreen⟩

/-- Event for `println!` of the continuation prompt. -/
def contPromptEv : OutEvent :=
  .stdout ⟨"Would you like to check the weather for another location? (yes/no):", .brightGreen⟩

/-- The plain `println!` farewell printed before `break`. -/
def thankYouEv : OutEvent := .stdout ⟨"Thank you for using Weather App!", .normal⟩

/-- The line `eprintln!` writes when `obtain_weather` fails. -/
def errorLine (e : ReqwestError) : String :=
  "Error retrieving weather information: " ++ e.display

/-- Outputs of the `match weather_app.obtain_weather(..)` arm of the loop:
a colored weather block on success (`none` when rendering panics on an empty
weather list), or the single stderr diagnostic on failure. -/
def fetchEvents : Except ReqwestError WeatherData → Option (List OutEvent)
  | .error e => some [.stderr (errorLine e)]
  | .ok weather_info =>
    match render_weather_info weather_info with
    | some cs => some [.stdout cs]
    | none => none

/-- The `loop { .. }` of `UserInteraction::execute_app`, run against a
script of iterations: each pass prints the two prompts, handles the fetch
result, prints the continuation prompt, and repeats iff the answer (trimmed,
lowercased) is "yes". -/
def loopRun : List Iteration → List OutEvent × Outcome
  | [] => ([], .starved)
  | it :: rest =>
    match fetchEvents it.fetch with
    | none =>
      ([cityPromptEv, countryPromptEv],
        .panicked "index out of bounds: the len is 0 but the index is 0")
    | some evs =>
      if continueChoice it.answer then
        let r := loopRun rest
        ([cityPromptEv, countryPromptEv] ++ evs ++ [contPromptEv] ++ r.1, r.2)
      else
        ([cityPromptEv, countryPromptEv] ++ evs ++ [contPromptEv, thankYouEv], .terminated)

/-- Rust `UserInteraction::execute_app`: the welcome banner followed by the loop. -/
def execute_app (script : List Iteration) : List OutEvent × Outcome :=
  (welcomeEv :: (loopRun script).1, (loopRun script).2)

/-- Split a character list on a separator character (helper for inspecting
the query string of a built URL). -/
def splitChar (sep : Char) : List Char → List (List Char)
  | [] => [[]]
  | c :: cs =>
    match splitChar sep cs with
    | [] => [[]]
    | g :: gs => if c = sep then [] :: g :: gs else (c :: g) :: gs

/-- The key-value pairs a query-string consumer reads from a URL: everything
after the first `?`, split on `&`, each piece split at its first `=`. -/
def queryParams (url : String) : List (String × String) :=
  match splitChar '?' url.data with
  | [_, q] =>
    (splitChar '&' q).map fun kv =>
      match splitChar '=' kv with
      | [] => ("", "")
      | [k] => (⟨k⟩, "")
      | k :: v :: rest => (⟨k⟩, ⟨List.intercalate ['='] (v :: rest)⟩)
  | _ => []

/-- A weather record whose provider weather list is empty — the edge case of
claim C1. -/
def emptyWeatherRec : WeatherData :=
  ⟨[], ⟨.val 20, .val 50, .val 1013⟩, ⟨.val 3⟩, "Testville"⟩

/-- Evaluation of `emoji_for_temperature` on a finite value as a nest of
rational comparisons. -/
theorem emoji_val (t : ℚ) :
    emoji_for_temperature (.val t) =
      if t < 0 then "❄️" else if t < 10 then "☁️" else if t < 20 then "⛅"
      else if t < 30 then "🌤️" else "🔥" := by
  simp [emoji_for_temperature, F64.flt]

/-- The decimal representation of a digit is one character long. -/
theorem toString_digit_length (n : ℕ) (h : n < 10) : (toString n).length = 1 := by
  interval_cases n <;> rfl

/-- C1: the code violates the claim.  On a record whose weather list is
empty, `render_weather_info` evaluates `weather[0]`, an out-of-bounds index:
rendering does read past the end of the description list, and the loop pass
ends in a panic instead of a defined fetch failure. -/
theorem render_empty_weather_panics :
    render_weather_info emptyWeatherRec = none ∧
    (loopRun [⟨"Paris", "FR", .ok emptyWeatherRec, "no"⟩]).2 =
      .panicked "index out of bounds: the len is 0 but the index is 0" :=
  ⟨rfl, by decide⟩

/-- C2: `emoji_for_temperature` returns exactly one of the five symbols,
first-match-wins over the ordered thresholds 0, 10, 20, 30, with the lower
bound excluded from each tier: 0 ↦ cold, 10 ↦ mild, 20 ↦ warm, 30 ↦ hot. -/
theorem emoji_thresholds (t : ℚ) :
    (emoji_for_temperature (.val t) = "❄️" ∨ emoji_for_temperature (.val t) = "☁️" ∨
      emoji_for_temperature (.val t) = "⛅" ∨ emoji_for_temperature (.val t) = "🌤️" ∨
      emoji_for_temperature (.val t) = "🔥") ∧
    (t < 0 → emoji_for_temperature (.val t) = "❄️") ∧
    (0 ≤ t → t < 10 → emoji_for_temperature (.val t) = "☁️") ∧
    (10 ≤ t → t < 20 → emoji_for_temperature (.val t) = "⛅") ∧
    (20 ≤ t → t < 30 → emoji_for_temperature (.val t) = "🌤️") ∧
    (30 ≤ t → emoji_for_temperature (.val t) = "🔥") ∧
    emoji_for_temperature (.val 0) = "☁️" ∧ emoji_for_temperature (.val 10) = "⛅" ∧
    emoji_for_temperature (.val 20) = "🌤️" ∧ emoji_for_temperature (.val 30) = "🔥" := by
  refine ⟨?_, ?_, ?_, ?_, ?_, ?_, by decide, by decide, by decide, by decide⟩
  · rw [emoji_val]; split_ifs <;> simp
  · intro h; rw [emoji_val, if_pos h]
  · intro h0 h10; rw [emoji_val, if_neg (not_lt.2 h0), if_pos h10]
  · intro h10 h20
    rw [emoji_val, if_neg (not_lt.2 (by linarith)), if_neg (not_lt.2 h10), if_pos h20]
  · intro h20 h30
    rw [emoji_val, if_neg (not_lt.2 (by linarith)), if_neg (not_lt.2 (by linarith)),
      if_neg (not_lt.2 h20), if_pos h30]
  · intro h30
    rw [emoji_val, if_neg (not_lt.2 (by linarith)), if_neg (not_lt.2 (by linarith)),
      if_neg (not_lt.2 (by linarith)), if_neg (not_lt.2 h30)]

/-- Witness for C2: the threshold implications discharged at -5, 5, 15, 25
and 35 degrees. -/
theorem emoji_thresholds_witness :
    emoji_for_temperature (.val (-5)) = "❄️" ∧ emoji_for_temperature (.val 5) = "☁️" ∧
    emoji_for_temperature (.val 15) = "⛅" ∧ emoji_for_temperature (.val 25) = "🌤️" ∧
    emoji_for_temperature (.val 35) = "🔥" :=
  ⟨(emoji_thresholds (-5)).2.1 (by norm_num),
   (emoji_thresholds 5).2.2.1 (by norm_num) (by norm_num),
   (emoji_thresholds 15).2.2.2.1 (by norm_num) (by norm_num),
   (emoji_thresholds 25).2.2.2.2.1 (by norm_num) (by norm_num),
   (emoji_thresholds 35).2.2.2.2.2.1 (by norm_num)⟩

/-- C3: `colorize_weather_output` maps each of the thirteen known provider
phrases to its documented style, case-sensitively; every other description —
"Clear Sky" among them — gets the unstyled fallback. -/
theorem colorize_known_and_fallback (text : String) :
    colorize_weather_output "clear sky" text = ⟨text, .brightYellow⟩ ∧
    colorize_weather_output "few clouds" text = ⟨text, .brightBlue⟩ ∧
    colorize_weather_output "scattered clouds" text = ⟨text, .brightBlue⟩ ∧
    colorize_weather_output "broken clouds" text = ⟨text, .brightBlue⟩ ∧
    colorize_weather_output "overcast clouds" text = ⟨text, .dimmed⟩ ∧
    colorize_weather_output "mist" text = ⟨text, .dimmed⟩ ∧
    colorize_weather_output "haze" text = ⟨text, .dimmed⟩ ∧
    colorize_weather_output "smoke" text = ⟨text, .dimmed⟩ ∧
    colorize_weather_output "dust" text = ⟨text, .dimmed⟩ ∧
    colorize_weather_output "fog" text = ⟨text, .dimmed⟩ ∧
    colorize_weather_output "rain" text = ⟨text, .brightCyan⟩ ∧
    colorize_weather_output "thunderstorm" text = ⟨text, .brightCyan⟩ ∧
    colorize_weather_output "snow" text = ⟨text, .brightCyan⟩ ∧
    (∀ d : String, d ∉ knownPhrases → colorize_weather_output d text = ⟨text, .normal⟩) ∧
    colorize_weather_output "Clear Sky" text = ⟨text, .normal⟩ := by
  refine ⟨rfl, rfl, rfl, rfl, rfl, rfl, rfl, rfl, rfl, rfl, rfl, rfl, rfl, ?_, rfl⟩
  intro d hd
  simp only [knownPhrases, List.mem_cons, List.not_mem_nil, or_false, not_or] at hd
  obtain ⟨h1, h2, h3, h4, h5, h6, h7, h8, h9, h10, h11, h12, h13⟩ := hd
  simp [colorize_weather_output, h1, h2, h3, h4, h5, h6, h7, h8, h9, h10, h11, h12, h13]

/-- Witness for C3: the fallback arm discharged at the description
"Clear Sky", which is not among the known phrases. -/
theorem colorize_known_and_fallback_witness :
    colorize_weather_output "Clear Sky" "block" = ⟨"block", .normal⟩ :=
  (colorize_known_and_fallback "block").2.2.2.2.2.2.2.2.2.2.2.2.2.1 "Clear Sky" (by decide)

/-- Counterexample for C4: the answer " yes " does not case-insensitively
equal "yes" (even lowercased it keeps its spaces), yet the loop repeats —
running a one-iteration script with it starves the script instead of
terminating — so "terminates for any other answer" is false as stated. -/
theorem loop_continues_on_untrimmed_yes :
    continueChoice " yes " = true ∧ rustToLowercase " yes " ≠ "yes" ∧
    (loopRun [⟨"Paris", "FR", .error ⟨.network, "connection refused"⟩, " yes "⟩]).2 =
      .starved := by
  decide

/-- C4 (amended): the loop repeats exactly when the answer, trimmed of
whitespace and lowercased, equals "yes"; in particular "yes", "Yes", "YES"
repeat and "no", "", "y" terminate. -/
theorem loop_repeat_iff_trimmed_lowercased_yes :
    (∀ ans : String, continueChoice ans = (rustToLowercase (rustTrim ans) == "yes")) ∧
    (∀ (city country : String) (e : ReqwestError) (ans : String) (rest : List Iteration),
      (loopRun (⟨city, country, .error e, ans⟩ :: rest)).2 =
        if continueChoice ans then (loopRun rest).2 else .terminated) ∧
    continueChoice "yes" = true ∧ continueChoice "Yes" = true ∧
    continueChoice "YES" = true ∧ continueChoice "no" = false ∧
    continueChoice "" = false ∧ continueChoice "y" = false := by
  refine ⟨fun ans => rfl, ?_, by decide, by decide, by decide, by decide, by decide, by decide⟩
  intro city country e ans rest
  by_cases h : continueChoice ans <;> simp [loopRun, fetchEvents, h]

/-- C5: when `obtain_weather` fails, the loop pass prints the two prompts,
exactly one diagnostic line — on the error stream — then the continuation
prompt, and goes on to the continuation decision instead of aborting; the
printed line is the same for every error kind carrying the same display. -/
theorem fetch_error_single_line_loop_continues (k k' : ErrKind)
    (msg city country ans : String) (rest : List Iteration) :
    (loopRun (⟨city, country, .error ⟨k, msg⟩, ans⟩ :: rest)).1 =
      cityPromptEv :: countryPromptEv ::
        .stderr ("Error retrieving weather information: " ++ msg) :: contPromptEv ::
        (if continueChoice ans then (loopRun rest).1 else [thankYouEv]) ∧
    (loopRun (⟨city, country, .error ⟨k, msg⟩, ans⟩ :: rest)).2 =
      (if continueChoice ans then (loopRun rest).2 else .terminated) ∧
    [cityPromptEv, countryPromptEv,
      .stderr ("Error retrieving weather information: " ++ msg), contPromptEv,
      thankYouEv].countP OutEvent.isStderr = 1 ∧
    errorLine ⟨k, msg⟩ = errorLine ⟨k', msg⟩ := by
  refine ⟨?_, ?_, ?_, rfl⟩
  · by_cases h : continueChoice ans <;>
      simp [loopRun, fetchEvents, errorLine, ReqwestError.display, h]
  · by_cases h : continueChoice ans <;> simp [loopRun, fetchEvents, h]
  · simp [List.countP_cons, OutEvent.isStderr, cityPromptEv, countryPromptEv,
      contPromptEv, thankYouEv]

/-- C6: rendering a record with a non-empty weather list and finite metrics
yields one block with the location name verbatim, the first description
verbatim, the temperature symbol, and the four metrics through `fmt1`;
`fmt1` always ends in a dot followed by exactly one digit, and 15.04 is
rendered "15.0". -/
theorem render_block_contents (nm desc : String) (rest : List WeatherDetails)
    (t h p s : ℚ) :
    render_weather_info ⟨⟨desc⟩ :: rest, ⟨.val t, .val h, .val p⟩, ⟨.val s⟩, nm⟩ =
      some (colorize_weather_output desc
        ("Weather Update for " ++ nm ++ ": " ++ desc ++ " " ++
          emoji_for_temperature (.val t) ++
          "\n            > Temperature: " ++ fmt1 (.val t) ++ "°C" ++
          "\n            > Humidity: " ++ fmt1 (.val h) ++ "%" ++
          "\n            > Pressure: " ++ fmt1 (.val p) ++ " hPa" ++
          "\n            > Wind Speed: " ++ fmt1 (.val s) ++ " m/s")) ∧
    (∀ q : ℚ, ∃ pre dgt : String,
      fmt1 (.val q) = pre ++ "." ++ dgt ∧ dgt.length = 1) ∧
    fmt1 (.val (mkRat 1504 100)) = "15.0" := by
  refine ⟨rfl, ?_, by decide⟩
  intro q
  exact ⟨(if q < 0 then "-" else "") ++ toString (roundTenthsAbs q / 10),
    toString (roundTenthsAbs q % 10), rfl,
    toString_digit_length _ (Nat.mod_lt _ (by norm_num))⟩

/-- C7: `obtain_weather` issues its GET on exactly the URL obtained by
substituting city, country code and API token into the fixed metric-units
template, then deserializes the body, each step short-circuiting on error. -/
theorem obtain_weather_fixed_url_template (api_token city country : String) :
    api_endpoint_for api_token city country =
      "http://api.openweathermap.org/data/2.5/weather?q=" ++ city ++ "," ++ country ++
        "&units=metric&appid=" ++ api_token ∧
    ∀ {β : Type} (get : String → Except ReqwestError β)
      (json : β → Except ReqwestError WeatherData),
      obtain_weather get json api_token city country =
        (get (api_endpoint_for api_token city country)).bind
          fun api_response => (json api_response).bind Except.ok := by
  refine ⟨rfl, ?_⟩
  intro β get json
  rfl

/-- C8: every threshold comparison is false on NaN, so NaN maps to the hot
symbol; in general any input on which all four comparisons are false — NaN
included — maps to the hot symbol, and the function is total. -/
theorem emoji_nan_hot :
    (F64.flt .nan (.val 0) = false ∧ F64.flt .nan (.val 10) = false ∧
      F64.flt .nan (.val 20) = false ∧ F64.flt .nan (.val 30) = false) ∧
    emoji_for_temperature .nan = "🔥" ∧
    ∀ temp : F64, F64.flt temp (.val 0) = false → F64.flt temp (.val 10) = false →
      F64.flt temp (.val 20) = false → F64.flt temp (.val 30) = false →
      emoji_for_temperature temp = "🔥" := by
  refine ⟨⟨rfl, rfl, rfl, rfl⟩, rfl, ?_⟩
  intro temp h0 h10 h20 h30
  simp [emoji_for_temperature, h0, h10, h20, h30]

/-- Witness for C8: the all-comparisons-false implication discharged at NaN
itself. -/
theorem emoji_nan_hot_witness : emoji_for_temperature .nan = "🔥" :=
  emoji_nan_hot.2.2 .nan rfl rfl rfl rfl

/-- C9: the continuation answer is trimmed and lowercased before the
comparison with "yes": "  YES  " and "yes\n" repeat the loop (a script run
with "  YES  " keeps looping) although neither lowercases to "yes", i.e.
neither case-insensitively equals it; the decision only sees the trimmed
answer. -/
theorem continuation_answer_trimmed_lowercased :
    continueChoice "  YES  " = true ∧ continueChoice "yes\n" = true ∧
    rustToLowercase "  YES  " ≠ "yes" ∧ rustToLowercase "yes\n" ≠ "yes" ∧
    (loopRun [⟨"Oslo", "NO", .error ⟨.decode, "missing field"⟩, "  YES  "⟩]).2 =
      .starved ∧
    (∀ s t : String, rustTrim s = rustTrim t → continueChoice s = continueChoice t) := by
  refine ⟨by decide, by decide, by decide, by decide, by decide, ?_⟩
  intro s t h
  simp [continueChoice, h]

/-- Witness for C9: the trim-invariance arm discharged at " YES" and
"YES ", whose trims agree. -/
theorem continuation_answer_trimmed_lowercased_witness :
    continueChoice " YES" = continueChoice "YES " :=
  continuation_answer_trimmed_lowercased.2.2.2.2.2 " YES" "YES " (by decide)

/-- C10: the city is substituted into the URL verbatim, so a city containing
"&" and "=" injects an extra query parameter: with city "Paris&injected=1"
the built URL parses into four parameters, among them ("injected", "1,FR"),
whereas the benign city "Paris" yields only the three intended ones. -/
theorem url_city_unescaped_injects_parameter :
    api_endpoint_for "KEY" "Paris&injected=1" "FR" =
      "http://api.openweathermap.org/data/2.5/weather?q=Paris&injected=1,FR&units=metric&appid=KEY" ∧
    queryParams (api_endpoint_for "KEY" "Paris&injected=1" "FR") =
      [("q", "Paris"), ("injected", "1,FR"), ("units", "metric"), ("appid", "KEY")] ∧
    ("injected", "1,FR") ∈ queryParams (api_endpoint_for "KEY" "Paris&injected=1" "FR") ∧
    queryParams (api_endpoint_for "KEY" "Paris" "FR") =
      [("q", "Paris,FR"), ("units", "metric"), ("appid", "KEY")] := by
  refine ⟨by decide, by decide, by decide, by decide⟩
